import Mathlib

/-!
Verification of the MCP Trello HTTP adapter (`src/http-server.ts`).

The development shallowly embeds the `POST /mcp` request handler: JSON
values model request/response bodies, an environment record models the
upstream `TrelloClient` (an external collaborator whose calls may succeed
or fail), and the handler is a pure function from a request body and an
environment to an HTTP response.  JavaScript-specific behaviour that the
handler relies on (truthiness, `||` defaulting, property access on
arbitrary values, `JSON.stringify` dropping `undefined`) is modelled
explicitly.
-/

/-- A JSON value as produced by `express.json()` body parsing and consumed
by `res.json(...)`.  JavaScript `undefined` is not a JSON value; absence is
modelled with `Option Json` where it matters. -/
inductive Json where
  | null : Json
  | bool : Bool → Json
  | num : Int → Json
  | str : String → Json
  | arr : List Json → Json
  | obj : List (String × Json) → Json
deriving Repr

/-- JavaScript truthiness of a JSON value (`if (v)`, `v || d`). -/
def jsTruthy : Json → Bool
  | .null => false
  | .bool b => b
  | .num n => n != 0
  | .str s => s != ""
  | .arr _ => true
  | .obj _ => true

/-- Truthiness of a possibly-absent value (`undefined` is falsy). -/
def jsTruthyOpt : Option Json → Bool
  | none => false
  | some v => jsTruthy v

/-- JavaScript `v || d` over a possibly-absent value. -/
def jsOr (v : Option Json) (d : Json) : Json :=
  match v with
  | some j => if jsTruthy j then j else d
  | none => d

/-- JavaScript property access `v.key`: a lookup on objects, `undefined`
on every other value. -/
def jsGet (v : Json) (key : String) : Option Json :=
  match v with
  | .obj fields => fields.lookup key
  | _ => none

/-- String interpolation of a value into a template literal
(`` `Unknown tool: ${toolName}` ``), for the value shapes the handler can
meet. -/
def jsDisplay : Option Json → String
  | none => "undefined"
  | some .null => "null"
  | some (.bool true) => "true"
  | some (.bool false) => "false"
  | some (.num n) => toString n
  | some (.str s) => s
  | some (.arr _) => ""
  | some (.obj _) => "[object Object]"

/-- One character of `JSON.stringify` string escaping. -/
def jsonEscapeChar (c : Char) : String :=
  if c = '"' then "\\\""
  else if c = '\\' then "\\\\"
  else if c = '\n' then "\\n"
  else if c = '\r' then "\\r"
  else if c = '\t' then "\\t"
  else if c.toNat < 32 then "\\u00" ++ toString c.toNat
  else String.singleton c

def jsonEscape (s : String) : String :=
  String.join (s.data.map jsonEscapeChar)

mutual

/-- Model of `JSON.stringify` on a JSON value. -/
def jsonStringify : Json → String
  | .null => "null"
  | .bool true => "true"
  | .bool false => "false"
  | .num n => toString n
  | .str s => "\"" ++ jsonEscape s ++ "\""
  | .arr xs => "[" ++ jsonStringifyList xs ++ "]"
  | .obj fs => "\x7b" ++ jsonStringifyFields fs ++ "\x7d"

def jsonStringifyList : List Json → String
  | [] => ""
  | [x] => jsonStringify x
  | x :: y :: rest => jsonStringify x ++ "," ++ jsonStringifyList (y :: rest)

def jsonStringifyFields : List (String × Json) → String
  | [] => ""
  | [(k, v)] => "\"" ++ jsonEscape k ++ "\":" ++ jsonStringify v
  | (k, v) :: f :: rest =>
      "\"" ++ jsonEscape k ++ "\":" ++ jsonStringify v ++ "," ++
        jsonStringifyFields (f :: rest)

end

/-- A Trello board as returned by the upstream client (the fields the
handler reads). -/
structure TrelloBoard where
  id : String
  name : String
  desc : String
  url : String
  shortUrl : String
  closed : Bool
  idOrganization : String
deriving Repr, DecidableEq

/-- A Trello list as returned by the upstream client (the fields the
handler reads). -/
structure TrelloList where
  id : String
  name : String
  closed : Bool
  idBoard : String
deriving Repr, DecidableEq

/-- The upstream board object re-projected into JSON, as the legacy
`list_boards` / `get_active_board_info` paths return it unchanged. -/
def boardJson (b : TrelloBoard) : Json :=
  .obj [("id", .str b.id), ("name", .str b.name), ("desc", .str b.desc),
    ("url", .str b.url), ("shortUrl", .str b.shortUrl),
    ("closed", .bool b.closed), ("idOrganization", .str b.idOrganization)]

/-- The upstream list object re-projected into JSON, as the `get_lists`
paths return it unchanged. -/
def trelloListJson (l : TrelloList) : Json :=
  .obj [("id", .str l.id), ("name", .str l.name),
    ("closed", .bool l.closed), ("idBoard", .str l.idBoard)]

/-- Model of `String.prototype.toLowerCase()` (character-wise lowering). -/
def strToLower (s : String) : String :=
  String.mk (s.data.map Char.toLower)

/-- Does `hay` start with `needle`? (helper for the `includes` model). -/
def charsLeadsWith : List Char → List Char → Bool
  | [], _ => true
  | _ :: _, [] => false
  | a :: as, b :: bs => a == b && charsLeadsWith as bs

/-- Does `hay` contain `needle` as a contiguous run? -/
def charsContains (needle : List Char) : List Char → Bool
  | [] => charsLeadsWith needle []
  | c :: rest => charsLeadsWith needle (c :: rest) || charsContains needle rest

/-- Model of `String.prototype.includes(needle)`. -/
def strIncludes (hay needle : String) : Bool :=
  charsContains needle.data hay.data

/-- JavaScript strict equality of a value against a string literal
(`switch` case matching: only a string of the same characters matches). -/
def jsStrictEqStr : Json → String → Bool
  | .str t, s => t == s
  | _, _ => false

/-- Strict equality of a possibly-absent value against a string literal
(`undefined` matches no case label). -/
def jsStrictEqStrOpt : Option Json → String → Bool
  | some v, s => jsStrictEqStr v s
  | none, _ => false

/-- A JavaScript object literal whose member expressions may be
`undefined`: members holding `undefined` are dropped from the modelled
object (they are invisible to property reads of other keys and to
serialization). -/
def objLit (fields : List (String × Option Json)) : Json :=
  .obj (fields.filterMap fun kv => kv.2.map fun j => (kv.1, j))

/-- The upstream `TrelloClient`, an external collaborator: each operation
is an async call that either resolves with a value or rejects with an
error message.  `listBoardsWinsRace` records which side of the
`Promise.race` against the 2000 ms timer in the `list_boards` tool
resolves first (`true` = the upstream call settles in time).
`clientCall` covers the remaining upstream operations, keyed by client
method name, with the argument values the handler passes. -/
structure TrelloEnv where
  listBoards : Except String (List TrelloBoard)
  listBoardsWinsRace : Bool
  getBoardById : Option Json → Except String TrelloBoard
  getLists : Option Json → Except String (List TrelloList)
  getCardsByList : Option Json → Option Json → Except String Json
  addCard : Option Json → Json → Except String Json
  activeBoardId : Option String
  clientCall : String → List (Option Json) → Except String Json

/-- Outcome of the body of the `POST /mcp` `try` block: an early
`return res.status(s).json(b)`, a fall-through to the envelope builder
with `result` set, or a thrown/rejected error caught by the `catch`. -/
inductive Outcome where
  | early (status : Nat) (body : Json)
  | result (r : Json)
  | thrown (msg : String)
deriving Repr

/-- Await on an upstream call whose result flows into `result`
unchanged. -/
def clientResult (r : Except String Json) : Outcome :=
  match r with
  | .ok j => .result j
  | .error e => .thrown e

/-- The `search` tool result entries: `{id, title, url}` per matching
board, in upstream listing order. -/
def searchResults (boards : List TrelloBoard) (query : String) : List Json :=
  (boards.filter fun board =>
      strIncludes (strToLower board.name) query ||
      strIncludes (strToLower board.desc) query).map fun board =>
    .obj [("id", .str board.id), ("title", .str board.name),
      ("url", .str board.url)]

/-- The `tools/call` case for the search tool: list all boards, lowercase the query,
filter by case-insensitive substring on name or description, project to
`{id, title, url}`, and JSON-encode `{results}`.  A missing (or
non-string) `query` makes `toolArguments.query.toLowerCase()` throw a
`TypeError` before any filtering. -/
def runSearch (env : TrelloEnv) (args : Json) : Outcome :=
  match env.listBoards with
  | .error e => .thrown e
  | .ok allBoards =>
    match jsGet args "query" with
    | none => .thrown "Cannot read properties of undefined (reading toLowerCase)"
    | some .null => .thrown "Cannot read properties of null (reading toLowerCase)"
    | some (.str s) =>
        let query := strToLower s
        .result (.str (jsonStringify
          (.obj [("results", .arr (searchResults allBoards query))])))
    | some _ => .thrown "toolArguments.query.toLowerCase is not a function"

/-- Board envelope of the `fetch` tool (`metadata.type = "board"`); the
`text` field falls back to `` `Tableau Trello: ${board.name}` `` when the
description is empty (JavaScript `||`). -/
def fetchBoardJson (board : TrelloBoard) : Json :=
  .obj [("id", .str board.id), ("title", .str board.name),
    ("text", .str (if board.desc = "" then "Tableau Trello: " ++ board.name
      else board.desc)),
    ("url", .str board.url),
    ("metadata", .obj [("type", .str "board"), ("closed", .bool board.closed),
      ("organization", .str board.idOrganization)])]

/-- List envelope of the `fetch` tool (`metadata.type = "list"`), built
from the first list returned when the given id is treated as a board
id. -/
def fetchListJson (l : TrelloList) (idArg : Option Json) : Json :=
  .obj [("id", .str l.id), ("title", .str l.name),
    ("text", .str ("Liste Trello: " ++ l.name)),
    ("url", .str ("https://trello.com/b/" ++ jsDisplay idArg)),
    ("metadata", .obj [("type", .str "list"), ("closed", .bool l.closed),
      ("boardId", .str l.idBoard)])]

/-- The `tools/call` case for the fetch tool: try the id as a board; on failure try it
as a board id whose first list is taken; an empty list enumeration is
turned into a thrown `No resource found` inside the inner `try`, which the
inner `catch` rethrows with the same message. -/
def runFetch (env : TrelloEnv) (idArg : Option Json) : Outcome :=
  match env.getBoardById idArg with
  | .ok board => .result (.str (jsonStringify (fetchBoardJson board)))
  | .error _ =>
    match env.getLists idArg with
    | .ok [] => .thrown ("No resource found with ID " ++ jsDisplay idArg)
    | .ok (l :: _) => .result (.str (jsonStringify (fetchListJson l idArg)))
    | .error _ => .thrown ("No resource found with ID " ++ jsDisplay idArg)

/-- The degraded `list_boards` result used when the upstream call fails or
loses the 2000 ms race. -/
def listBoardsErrorJson (msg : String) : Json :=
  .obj [("error", .str "Failed to fetch boards"), ("message", .str msg),
    ("boards", .arr [])]

/-- The `tools/call` case for the list_boards tool: race the upstream call against a
2000 ms timer; on success keep the open boards, truncate to the first 5,
project `{id, name, url: shortUrl}` and JSON-encode; on any error
(timeout or upstream rejection) return a JSON-encoded error marker with an
empty `boards` array instead of throwing. -/
def runListBoardsTool (env : TrelloEnv) : Outcome :=
  let raced : Except String (List TrelloBoard) :=
    if env.listBoardsWinsRace then env.listBoards
    else .error "Trello API timeout"
  match raced with
  | .ok boards =>
      .result (.str (jsonStringify (.arr
        (((boards.filter fun board => !board.closed).take 5).map fun board =>
          .obj [("id", .str board.id), ("name", .str board.name),
            ("url", .str board.shortUrl)]))))
  | .error e => .result (.str (jsonStringify (listBoardsErrorJson e)))

/-- The inner `switch (toolName)` of the `tools/call` branch.  JavaScript
`switch` uses strict equality, so only a string-valued tool name can match
a case; everything else falls to the default `throw`. -/
def runTool (env : TrelloEnv) (toolName : Option Json) (args : Json) : Outcome :=
  if jsStrictEqStrOpt toolName "search" then
    runSearch env args
  else if jsStrictEqStrOpt toolName "fetch" then
    runFetch env (jsGet args "id")
  else if jsStrictEqStrOpt toolName "list_boards" then
    runListBoardsTool env
  else if jsStrictEqStrOpt toolName "get_cards_by_list_id" then
    match env.getCardsByList (jsGet args "boardId") (jsGet args "listId") with
    | .ok cards => .result (.str (jsonStringify cards))
    | .error e => .thrown e
  else if jsStrictEqStrOpt toolName "get_lists" then
    match env.getLists (jsGet args "boardId") with
    | .ok lists => .result (.str (jsonStringify (.arr (lists.map trelloListJson))))
    | .error e => .thrown e
  else if jsStrictEqStrOpt toolName "create_card" then
    match env.addCard (jsGet args "boardId")
        (objLit [("listId", jsGet args "listId"), ("name", jsGet args "name"),
          ("description", jsGet args "desc")]) with
    | .ok card => .result (.str (jsonStringify card))
    | .error e => .thrown e
  else .thrown ("Unknown tool: " ++ jsDisplay toolName)

/-- The static `initialize` result. -/
def initResult : Json :=
  .obj [("protocolVersion", .str "2024-11-05"),
    ("capabilities", .obj [("tools", .obj [])]),
    ("serverInfo", .obj [("name", .str "mcp-server-trello"),
      ("version", .str "1.3.1")])]

/-- One catalog entry of the `tools/list` result. -/
def toolDescriptor (name description : String) (schema : Json) : Json :=
  .obj [("annotations", .null), ("name", .str name),
    ("description", .str description), ("inputSchema", schema)]

/-- An `inputSchema` object of the catalog. -/
def inputSchemaJson (properties : List (String × Json)) (required : List String)
    (examples : List Json) : Json :=
  .obj [("$schema", .str "https://json-schema.org/draft/2020-12/schema"),
    ("type", .str "object"), ("properties", .obj properties),
    ("required", .arr (required.map Json.str)),
    ("additionalProperties", .bool false),
    ("examples", .arr examples)]

/-- A string-typed property entry of an `inputSchema`. -/
def schemaStrProp (description : String) (examples : List String) : Json :=
  .obj [("type", .str "string"), ("description", .str description),
    ("examples", .arr (examples.map Json.str))]

/-- The static `tools/list` catalog (six tools, in source order). -/
def toolsListResult : Json :=
  .obj [("tools", .arr [
    toolDescriptor "search"
      "Search for content in Trello boards, lists, and cards. Use this to find specific boards or content. Example: search for \"SAV\" to find all boards containing \"SAV\" in their name or description."
      (inputSchemaJson
        [("query", schemaStrProp
          "Search query to find boards, lists, or cards. Examples: \"SAV\", \"projet\", \"Maxence\", \"urgent\""
          ["SAV", "projet", "urgent", "finance"])]
        ["query"]
        [.obj [("query", .str "SAV")], .obj [("query", .str "projet")],
          .obj [("query", .str "urgent")]]),
    toolDescriptor "fetch"
      "Fetch detailed information about a specific Trello resource (board, list, or card) using its ID. Example: fetch a board by its ID to get full details including description, URL, and metadata."
      (inputSchemaJson
        [("id", schemaStrProp
          "The unique ID of the Trello resource to fetch (board, list, or card ID). Example: \"5f8b2c1a3d4e5f6a7b8c9d0e\""
          ["5bed4a25a96b2a582160d31b", "5d0cb0d644b32880ea8268ea"])]
        ["id"]
        [.obj [("id", .str "5bed4a25a96b2a582160d31b")],
          .obj [("id", .str "5d0cb0d644b32880ea8268ea")]]),
    toolDescriptor "list_boards"
      "List all accessible Trello boards. Returns the 5 most recent open boards with basic information. Use this as the first step to see what boards are available. Example: call list_boards to see all your Trello boards."
      (inputSchemaJson [] [] [.obj []]),
    toolDescriptor "get_cards_by_list_id"
      "Get all cards from a specific Trello list. Use this to see what tasks or items are in a list. Example: get all cards from a \"To Do\" list to see pending tasks."
      (inputSchemaJson
        [("listId", schemaStrProp
          "The ID of the Trello list to get cards from. Example: \"5f8b2c1a3d4e5f6a7b8c9d0f\""
          ["5f8b2c1a3d4e5f6a7b8c9d0f", "5a1b2c3d4e5f6a7b8c9d0e1f"])]
        ["listId"]
        [.obj [("listId", .str "5f8b2c1a3d4e5f6a7b8c9d0f")],
          .obj [("listId", .str "5a1b2c3d4e5f6a7b8c9d0e1f")]]),
    toolDescriptor "get_lists"
      "Get all lists from a specific Trello board. Use this to see the structure of a board and find list IDs. Example: get lists from a project board to see \"To Do\", \"In Progress\", \"Done\" columns."
      (inputSchemaJson
        [("boardId", schemaStrProp
          "The ID of the Trello board to get lists from. Example: \"5f8b2c1a3d4e5f6a7b8c9d0e\""
          ["5bed4a25a96b2a582160d31b", "5d0cb0d644b32880ea8268ea"])]
        ["boardId"]
        [.obj [("boardId", .str "5bed4a25a96b2a582160d31b")],
          .obj [("boardId", .str "5d0cb0d644b32880ea8268ea")]]),
    toolDescriptor "create_card"
      "Create a new card in a Trello list. Use this to add new tasks or items to a list. Example: create a card \"Fix bug in login\" in the \"To Do\" list."
      (inputSchemaJson
        [("listId", schemaStrProp
          "The ID of the Trello list where to create the card. Example: \"5f8b2c1a3d4e5f6a7b8c9d0f\""
          ["5f8b2c1a3d4e5f6a7b8c9d0f", "5a1b2c3d4e5f6a7b8c9d0e1f"]),
         ("name", schemaStrProp
          "The name/title of the new card. Example: \"Fix bug in login\", \"Review document\", \"Call client\""
          ["Fix bug in login", "Review document", "Call client", "Update website"]),
         ("desc", schemaStrProp
          "Optional description for the new card. Example: \"Fix the authentication issue reported by users\""
          ["Fix the authentication issue reported by users", "Review the contract before signing", "Call to discuss project timeline"])]
        ["listId", "name"]
        [.obj [("listId", .str "5f8b2c1a3d4e5f6a7b8c9d0f"),
            ("name", .str "Fix bug in login"),
            ("desc", .str "Fix the authentication issue reported by users")],
          .obj [("listId", .str "5a1b2c3d4e5f6a7b8c9d0e1f"),
            ("name", .str "Review document"),
            ("desc", .str "Review the contract before signing")],
          .obj [("listId", .str "5f8b2c1a3d4e5f6a7b8c9d0f"),
            ("name", .str "Call client")]])])]

/-- The outer `switch (method)` of the handler, one branch per `case`
label in source order; `method` is the (truthy) value of the `method`
key.  JavaScript `switch` uses strict equality, so only string methods
can match the string case labels. -/
def runMethod (env : TrelloEnv) (method : Json) (params : Json) : Outcome :=
  if jsStrictEqStr method "initialize" then .result initResult
  else if jsStrictEqStr method "tools/list" then .result toolsListResult
  else if jsStrictEqStr method "tools/call" then
    runTool env (jsGet params "name") (jsOr (jsGet params "arguments") (.obj []))
  else if jsStrictEqStr method "get_cards_by_list_id" then
    clientResult (env.getCardsByList (jsGet params "boardId") (jsGet params "listId"))
  else if jsStrictEqStr method "get_lists" then
    match env.getLists (jsGet params "boardId") with
    | .ok lists => .result (.arr (lists.map trelloListJson))
    | .error e => .thrown e
  else if jsStrictEqStr method "get_recent_activity" then
    clientResult (env.clientCall "getRecentActivity"
      [jsGet params "boardId", jsGet params "limit"])
  else if jsStrictEqStr method "add_card_to_list" then
    clientResult (env.addCard (jsGet params "boardId") params)
  else if jsStrictEqStr method "update_card_details" then
    clientResult (env.clientCall "updateCard" [jsGet params "boardId", some params])
  else if jsStrictEqStr method "archive_card" then
    clientResult (env.clientCall "archiveCard"
      [jsGet params "boardId", jsGet params "cardId"])
  else if jsStrictEqStr method "move_card" then
    clientResult (env.clientCall "moveCard"
      [jsGet params "boardId", jsGet params "cardId", jsGet params "listId"])
  else if jsStrictEqStr method "add_list_to_board" then
    clientResult (env.clientCall "addList"
      [jsGet params "boardId", jsGet params "name"])
  else if jsStrictEqStr method "archive_list" then
    clientResult (env.clientCall "archiveList"
      [jsGet params "boardId", jsGet params "listId"])
  else if jsStrictEqStr method "get_my_cards" then
    clientResult (env.clientCall "getMyCards" [])
  else if jsStrictEqStr method "attach_image_to_card" then
    clientResult (env.clientCall "attachImageToCard"
      [jsGet params "boardId", jsGet params "cardId", jsGet params "imageUrl",
        jsGet params "name"])
  else if jsStrictEqStr method "attach_file_to_card" then
    clientResult (env.clientCall "attachFileToCard"
      [jsGet params "boardId", jsGet params "cardId", jsGet params "fileUrl",
        jsGet params "name", jsGet params "mimeType"])
  else if jsStrictEqStr method "list_boards" then
    match env.listBoards with
    | .ok boards => .result (.arr (boards.map boardJson))
    | .error e => .thrown e
  else if jsStrictEqStr method "set_active_board" then
    clientResult (env.clientCall "setActiveBoard" [jsGet params "boardId"])
  else if jsStrictEqStr method "list_workspaces" then
    clientResult (env.clientCall "listWorkspaces" [])
  else if jsStrictEqStr method "create_board" then
    clientResult (env.clientCall "createBoard" [some params])
  else if jsStrictEqStr method "set_active_workspace" then
    clientResult (env.clientCall "setActiveWorkspace" [jsGet params "workspaceId"])
  else if jsStrictEqStr method "list_boards_in_workspace" then
    clientResult (env.clientCall "listBoardsInWorkspace" [jsGet params "workspaceId"])
  else if jsStrictEqStr method "get_active_board_info" then
    match env.activeBoardId with
    | none => .early 400 (.obj [("error", .str "No active board set")])
    | some boardId =>
        if boardId = "" then .early 400 (.obj [("error", .str "No active board set")])
        else
          match env.getBoardById (some (.str boardId)) with
          | .ok board => .result (boardJson board)
          | .error e => .thrown e
  else if jsStrictEqStr method "get_card" then
    clientResult (env.clientCall "getCard"
      [jsGet params "cardId", jsGet params "includeMarkdown"])
  else if jsStrictEqStr method "add_comment" then
    clientResult (env.clientCall "addCommentToCard"
      [jsGet params "cardId", jsGet params "text"])
  else if jsStrictEqStr method "update_comment" then
    clientResult (env.clientCall "updateCommentOnCard"
      [jsGet params "commentId", jsGet params "text"])
  else if jsStrictEqStr method "get_checklist_items" then
    clientResult (env.clientCall "getChecklistItems"
      [jsGet params "name", jsGet params "boardId"])
  else if jsStrictEqStr method "add_checklist_item" then
    clientResult (env.clientCall "addChecklistItem"
      [jsGet params "text", jsGet params "checkListName", jsGet params "boardId"])
  else if jsStrictEqStr method "find_checklist_items_by_description" then
    clientResult (env.clientCall "findChecklistItemsByDescription"
      [jsGet params "description", jsGet params "boardId"])
  else if jsStrictEqStr method "get_acceptance_criteria" then
    clientResult (env.clientCall "getAcceptanceCriteria" [jsGet params "boardId"])
  else if jsStrictEqStr method "get_checklist_by_name" then
    clientResult (env.clientCall "getChecklistByName"
      [jsGet params "name", jsGet params "boardId"])
  else if jsStrictEqStr method "notifications/initialized" then
    .early 200 (.obj [])
  else
    .early 400 (.obj [("error", .str ("Unknown method: " ++ jsDisplay (some method)))])

/-- The raw `POST /mcp` request body: each top-level key the handler reads,
`none` meaning the key is absent (`undefined`). -/
structure ReqBody where
  jsonrpc : Option Json := none
  method : Option Json := none
  params : Option Json := none
  id : Option Json := none

/-- An HTTP response: the status code and the JSON body passed to
`res.json`. -/
structure HttpResponse where
  status : Nat
  body : Json
deriving Repr

/-- The JSON-RPC success envelope: `{jsonrpc, result, id}` where an
`undefined` `id` is dropped by the serialization inside `res.json`. -/
def rpcSuccessBody (r : Json) (idv : Option Json) : Json :=
  .obj ([("jsonrpc", .str "2.0"), ("result", r)] ++
    (match idv with
     | some j => [("id", j)]
     | none => []))

/-- The JSON-RPC error envelope built by the `catch` handler:
`id` is `req.body.id || null`. -/
def rpcErrorBody (msg : String) (reqId : Option Json) : Json :=
  .obj [("jsonrpc", .str "2.0"),
    ("error", .obj [("code", .num (-32603)), ("message", .str msg)]),
    ("id", jsOr reqId .null)]

/-- The complete `POST /mcp` handler on the path where the handler body
runs to completion (success, early return, or caught error) before the
outer 3000 ms timer writes anything: request normalization, the
missing-method check, dispatch, and the envelope builder / catch
handler. -/
def mcpPost (env : TrelloEnv) (req : ReqBody) : HttpResponse :=
  let isRpc := jsTruthyOpt req.jsonrpc
  let idLocal : Option Json := if isRpc then req.id else none
  let params := jsOr req.params (.obj [])
  if !jsTruthyOpt req.method then
    ⟨400, .obj [("error", .str "Method is required"), ("jsonrpc", .str "2.0"),
      ("id", jsOr idLocal .null)]⟩
  else
    match req.method with
    | none =>
        ⟨400, .obj [("error", .str "Method is required"), ("jsonrpc", .str "2.0"),
          ("id", jsOr idLocal .null)]⟩
    | some m =>
      match runMethod env m params with
      | .early s b => ⟨s, b⟩
      | .result r =>
          if isRpc then ⟨200, rpcSuccessBody r idLocal⟩
          else ⟨200, .obj [("result", r)]⟩
      | .thrown msg =>
          if isRpc then ⟨500, rpcErrorBody msg req.id⟩
          else ⟨500, .obj [("error", .str msg)]⟩

/-- The response written by the outer 3000 ms timer when it fires before
any other write: always JSON-RPC shaped, with `id` being
`req.body.id || null`. -/
def timeoutResponse (req : ReqBody) : HttpResponse :=
  ⟨500, .obj [("jsonrpc", .str "2.0"),
    ("error", .obj [("code", .num (-32603)), ("message", .str "Request timeout")]),
    ("id", jsOr req.id .null)]⟩

/-- Nested property access `v.k1.k2` on a JSON value. -/
def jsGetPath (v : Json) (k1 k2 : String) : Option Json :=
  (jsGet v k1).bind fun w => jsGet w k2

/-- Case-insensitive substring containment, following the wording of the
spec: case-insensitive substring match of `query` against the name and
description of each accessible board. -/
def ciContains (s q : String) : Bool :=
  strIncludes (strToLower s) (strToLower q)

/-- The search result sequence as the spec describes it: one
`{id, title, url}` entry per board whose name or description contains the
query case-insensitively, in upstream listing order. -/
def specSearchResults (boards : List TrelloBoard) (q : String) : List Json :=
  (boards.filter fun board => ciContains board.name q || ciContains board.desc q).map
    fun board =>
      .obj [("id", .str board.id), ("title", .str board.name),
        ("url", .str board.url)]

/-- The JSON-stringification of a fall-through tool result, relating a
`tools/call` outcome to the corresponding legacy outcome. -/
def stringifyOutcome : Outcome → Outcome
  | .result r => .result (.str (jsonStringify r))
  | o => o

/-- Modelled from the spec: the board-id defaulting performed inside
`TrelloClient` (`trello-client.ts` is not among the sources under
verification; only its call sites in `http-server.ts` are).  Spec §4.4:
"if a tool conceptually needs a board id and none is supplied, fall back
to `SessionContext.activeBoardId`; if that is also unset, fail with
`MissingContext` rather than calling upstream with an undefined id." -/
def resolveBoardId : Option String → Option String → Except String String
  | some b, _ => .ok b
  | none, some active => .ok active
  | none, none => .error "MissingContext"

/-- Modelled from the spec: a board-scoped upstream invocation after
defaulting.  The second component records the board ids with which the
remote service was actually called, so "no upstream call is made with an
undefined board id" is the statement that the log is empty. -/
def invokeBoardOp (supplied active : Option String)
    (op : String → Except String Json) : Except String Json × List String :=
  match resolveBoardId supplied active with
  | .ok b => (op b, [b])
  | .error e => (.error e, [])

/-- The write-capable turns of one `POST /mcp` request, the unit of the
single-response analysis: the 3000 ms outer timer callback, the success
send at the end of the `try` block, and the send in the `catch` handler. -/
inductive WriteEvent where
  | timerFires
  | successSend
  | catchSend
deriving Repr, DecidableEq

/-- The transport boundary of one request: whether headers have been sent
and how many response bodies have been written. -/
structure TransportState where
  headersSent : Bool
  writes : Nat
deriving Repr, DecidableEq

/-- A call of `res.json(...)` or `res.status(...).json(...)`: marks headers sent and
writes one body. -/
def sendJson (s : TransportState) : TransportState :=
  ⟨true, s.writes + 1⟩

/-- One write-capable turn.  The timer callback and the success send are
wrapped in `if (!res.headersSent)`; the `res.status(500).json(errorResponse)`
in the `catch` handler is not. -/
def stepWrite (s : TransportState) : WriteEvent → TransportState
  | .timerFires => if s.headersSent then s else sendJson s
  | .successSend => if s.headersSent then s else sendJson s
  | .catchSend => sendJson s

/-- Number of response bodies written after a sequence of turns, starting
from a fresh response. -/
def writesAfter (es : List WriteEvent) : Nat :=
  (es.foldl stepWrite ⟨false, 0⟩).writes

/-- The possible orderings of write-capable turns for one request: the
handler body completes exactly once (success send or catch send), and the
outer timer fires at most once, before or after it. -/
def requestInterleavings : List (List WriteEvent) :=
  [[.successSend], [.catchSend],
   [.successSend, .timerFires], [.catchSend, .timerFires],
   [.timerFires, .successSend], [.timerFires, .catchSend]]

/-- A baseline upstream environment: no boards, every lookup fails, every
other operation resolves trivially. -/
def envBase : TrelloEnv where
  listBoards := .ok []
  listBoardsWinsRace := true
  getBoardById := fun _ => .error "Board not found"
  getLists := fun _ => .error "Board not found"
  getCardsByList := fun _ _ => .ok (.arr [])
  addCard := fun _ _ => .ok (.obj [])
  activeBoardId := none
  clientCall := fun _ _ => .ok .null

/-- A sample board whose name matches the query "SAV". -/
def boardSAV : TrelloBoard where
  id := "b1"
  name := "SAV Client"
  desc := ""
  url := "https://trello.com/b/b1/sav-client"
  shortUrl := "https://trello.com/b/b1"
  closed := false
  idOrganization := "org1"

/-- A sample board whose name and description do not match "SAV". -/
def boardProjet : TrelloBoard where
  id := "b2"
  name := "Projet X"
  desc := "Suivi du projet"
  url := "https://trello.com/b/b2/projet-x"
  shortUrl := "https://trello.com/b/b2"
  closed := false
  idOrganization := "org1"

/-- A sample closed board. -/
def boardClosed : TrelloBoard where
  id := "b3"
  name := "Archive"
  desc := "old"
  url := "https://trello.com/b/b3/archive"
  shortUrl := "https://trello.com/b/b3"
  closed := true
  idOrganization := "org1"

/-- A sample list. -/
def listL1 : TrelloList where
  id := "l1"
  name := "To Do"
  closed := false
  idBoard := "b1"

/-- Environment with the two sample boards accessible. -/
def envSearch : TrelloEnv :=
  { envBase with listBoards := .ok [boardSAV, boardProjet] }

/-- Environment in which board resolution succeeds. -/
def envFetchBoard : TrelloEnv :=
  { envBase with getBoardById := fun _ => .ok boardSAV }

/-- Environment in which board resolution fails but the list fallback
finds a list. -/
def envFetchList : TrelloEnv :=
  { envBase with getLists := fun _ => .ok [listL1] }

/-- Environment in which list enumeration succeeds with no lists. -/
def envLists : TrelloEnv :=
  { envBase with getLists := fun _ => .ok [] }

/-- Environment in which the only accessible board is closed. -/
def envClosedBoard : TrelloEnv :=
  { envBase with listBoards := .ok [boardClosed] }

/-- Environment in which the upstream board listing loses the 2000 ms
race. -/
def envTimeout : TrelloEnv :=
  { envBase with listBoardsWinsRace := false }

/-- The method names the outer `switch` recognizes, in source order. -/
def knownMethods : List String :=
  ["initialize", "tools/list", "tools/call", "get_cards_by_list_id",
   "get_lists", "get_recent_activity", "add_card_to_list",
   "update_card_details", "archive_card", "move_card", "add_list_to_board",
   "archive_list", "get_my_cards", "attach_image_to_card",
   "attach_file_to_card", "list_boards", "set_active_board",
   "list_workspaces", "create_board", "set_active_workspace",
   "list_boards_in_workspace", "get_active_board_info", "get_card",
   "add_comment", "update_comment", "get_checklist_items",
   "add_checklist_item", "find_checklist_items_by_description",
   "get_acceptance_criteria", "get_checklist_by_name",
   "notifications/initialized"]

/-- The tool names the inner `switch (toolName)` recognizes, in source
order. -/
def knownTools : List String :=
  ["search", "fetch", "list_boards", "get_cards_by_list_id", "get_lists",
   "create_card"]

theorem searchResults_eq_spec (boards : List TrelloBoard) (q : String) :
    searchResults boards (strToLower q) = specSearchResults boards q := by
  simp [searchResults, specSearchResults, ciContains]

/-- C3: for every `tools/call` invocation of the search tool with a string
argument `query` and every board sequence returned upstream, the result is
a JSON-encoded string of a `results` object holding exactly one
`{id, title, url}` entry per board whose name or description contains the
query case-insensitively, in upstream listing order; no match yields an
empty `results` sequence and no error. -/
theorem search_results_spec (env : TrelloEnv) (args : Json)
    (boards : List TrelloBoard) (q : String)
    (hb : env.listBoards = .ok boards)
    (hq : jsGet args "query" = some (.str q)) :
    runTool env (some (.str "search")) args =
      .result (.str (jsonStringify
        (.obj [("results", .arr (specSearchResults boards q))]))) ∧
    (specSearchResults boards q = [] →
      runTool env (some (.str "search")) args =
        .result (.str (jsonStringify (.obj [("results", .arr [])])))) := by
  have hrun : runTool env (some (.str "search")) args =
      .result (.str (jsonStringify
        (.obj [("results", .arr (specSearchResults boards q))]))) := by
    simp [runTool, jsStrictEqStrOpt, jsStrictEqStr, runSearch, hb, hq,
      searchResults_eq_spec]
  exact ⟨hrun, fun he => by rw [hrun, he]⟩

theorem search_results_spec_witness :
    specSearchResults [boardSAV, boardProjet] "sav" =
      [.obj [("id", .str "b1"), ("title", .str "SAV Client"),
        ("url", .str "https://trello.com/b/b1/sav-client")]] ∧
    runTool envSearch (some (.str "search")) (.obj [("query", .str "sav")]) =
      .result (.str (jsonStringify
        (.obj [("results",
          .arr (specSearchResults [boardSAV, boardProjet] "sav"))]))) :=
  ⟨rfl,
   (search_results_spec envSearch (.obj [("query", .str "sav")])
     [boardSAV, boardProjet] "sav" rfl rfl).1⟩

/-- C2: every `tools/call` invocation of the fetch tool first attempts to
resolve the id as a board (envelope with `metadata.type = "board"` on
success); on failure it enumerates the lists of the id taken as a board id
and, when non-empty, returns an envelope for the first list with
`metadata.type = "list"`; when both resolutions fail (including an empty
list enumeration) it throws a not-found error naming the id. -/
theorem fetch_resolution_order (env : TrelloEnv) (args : Json) :
    runTool env (some (.str "fetch")) args = runFetch env (jsGet args "id") ∧
    (∀ b, env.getBoardById (jsGet args "id") = .ok b →
      runFetch env (jsGet args "id") =
        .result (.str (jsonStringify (fetchBoardJson b))) ∧
      jsGetPath (fetchBoardJson b) "metadata" "type" = some (.str "board")) ∧
    (∀ e l rest, env.getBoardById (jsGet args "id") = .error e →
      env.getLists (jsGet args "id") = .ok (l :: rest) →
      runFetch env (jsGet args "id") =
        .result (.str (jsonStringify (fetchListJson l (jsGet args "id")))) ∧
      jsGetPath (fetchListJson l (jsGet args "id")) "metadata" "type" =
        some (.str "list")) ∧
    (∀ e, env.getBoardById (jsGet args "id") = .error e →
      (env.getLists (jsGet args "id") = .ok [] ∨
        ∃ e2, env.getLists (jsGet args "id") = .error e2) →
      runFetch env (jsGet args "id") =
        .thrown ("No resource found with ID " ++ jsDisplay (jsGet args "id"))) := by
  refine ⟨?_, ?_, ?_, ?_⟩
  · simp [runTool, jsStrictEqStrOpt, jsStrictEqStr]
  · intro b h
    exact ⟨by simp [runFetch, h], rfl⟩
  · intro e l rest h1 h2
    exact ⟨by simp [runFetch, h1, h2], rfl⟩
  · intro e h1 h2
    rcases h2 with h2 | ⟨e2, h2⟩ <;> simp [runFetch, h1, h2]

theorem fetch_resolution_order_witness :
    runFetch envFetchBoard (some (.str "b1")) =
      .result (.str (jsonStringify (fetchBoardJson boardSAV))) ∧
    jsGetPath (fetchBoardJson boardSAV) "metadata" "type" =
      some (.str "board") ∧
    runFetch envFetchList (some (.str "zz")) =
      .result (.str (jsonStringify (fetchListJson listL1 (some (.str "zz"))))) ∧
    jsGetPath (fetchListJson listL1 (some (.str "zz"))) "metadata" "type" =
      some (.str "list") ∧
    runFetch envBase (some (.str "missing")) =
      .thrown "No resource found with ID missing" :=
  have hb := (fetch_resolution_order envFetchBoard
    (.obj [("id", .str "b1")])).2.1 boardSAV rfl
  have hl := (fetch_resolution_order envFetchList
    (.obj [("id", .str "zz")])).2.2.1 "Board not found" listL1 [] rfl rfl
  have hn := (fetch_resolution_order envBase
    (.obj [("id", .str "missing")])).2.2.2 "Board not found" rfl
    (.inr ⟨"Board not found", rfl⟩)
  ⟨hb.1, hb.2, hl.1, hl.2, hn⟩

/-- C4: when the upstream board listing loses the 2000 ms race in the
`tools/call` `list_boards` handler, no exception propagates: the tool
produces a success-shaped JSON-encoded result carrying an explicit error
marker and an empty `boards` sequence, and the HTTP response status is
200. -/
theorem list_boards_timeout_degraded (env : TrelloEnv) (idv : Option Json)
    (hrace : env.listBoardsWinsRace = false) :
    runListBoardsTool env =
      .result (.str (jsonStringify (listBoardsErrorJson "Trello API timeout"))) ∧
    jsGet (listBoardsErrorJson "Trello API timeout") "boards" =
      some (.arr []) ∧
    jsGet (listBoardsErrorJson "Trello API timeout") "error" =
      some (.str "Failed to fetch boards") ∧
    mcpPost env ⟨some (.str "2.0"), some (.str "tools/call"),
        some (.obj [("name", .str "list_boards")]), idv⟩ =
      ⟨200, rpcSuccessBody
        (.str (jsonStringify (listBoardsErrorJson "Trello API timeout"))) idv⟩ := by
  refine ⟨by simp [runListBoardsTool, hrace], rfl, rfl, ?_⟩
  simp [mcpPost, jsTruthyOpt, jsTruthy, jsOr, jsGet, runMethod, runTool,
    jsStrictEqStr, jsStrictEqStrOpt, runListBoardsTool, hrace]

theorem list_boards_timeout_degraded_witness :
    runListBoardsTool envTimeout =
      .result (.str (jsonStringify (listBoardsErrorJson "Trello API timeout"))) ∧
    mcpPost envTimeout ⟨some (.str "2.0"), some (.str "tools/call"),
        some (.obj [("name", .str "list_boards")]), some (.num 7)⟩ =
      ⟨200, rpcSuccessBody
        (.str (jsonStringify (listBoardsErrorJson "Trello API timeout")))
        (some (.num 7))⟩ :=
  have h := list_boards_timeout_degraded envTimeout (some (.num 7)) rfl
  ⟨h.1, h.2.2.2⟩

/-- C10: a `tools/call` invocation of the search tool whose arguments lack
the (schema-required) `query` key makes the handler throw a type error
while lowercasing the missing argument; the `catch` handler surfaces it as
HTTP 500 with JSON-RPC code -32603, not as an HTTP 400 validation
error. -/
theorem search_missing_query_500 (env : TrelloEnv) (params : Json)
    (boards : List TrelloBoard) (idv : Option Json)
    (hb : env.listBoards = .ok boards)
    (hname : jsGet params "name" = some (.str "search"))
    (hq : jsGet (jsOr (jsGet params "arguments") (.obj [])) "query" = none) :
    runTool env (jsGet params "name") (jsOr (jsGet params "arguments") (.obj [])) =
      .thrown "Cannot read properties of undefined (reading toLowerCase)" ∧
    mcpPost env ⟨some (.str "2.0"), some (.str "tools/call"), some params, idv⟩ =
      ⟨500, rpcErrorBody
        "Cannot read properties of undefined (reading toLowerCase)" idv⟩ ∧
    jsGetPath (rpcErrorBody
        "Cannot read properties of undefined (reading toLowerCase)" idv)
      "error" "code" = some (.num (-32603)) := by
  have hrun : runTool env (jsGet params "name")
      (jsOr (jsGet params "arguments") (.obj [])) =
      .thrown "Cannot read properties of undefined (reading toLowerCase)" := by
    rw [hname]
    simp [runTool, jsStrictEqStrOpt, jsStrictEqStr, runSearch, hb, hq]
  refine ⟨hrun, ?_, rfl⟩
  cases params with
  | obj fields =>
      simp only [jsOr, jsTruthy] at hrun
      simp [mcpPost, jsTruthyOpt, jsTruthy, jsOr, runMethod,
        jsStrictEqStr, jsStrictEqStrOpt, hrun]
  | null => simp [jsGet] at hname
  | bool b => simp [jsGet] at hname
  | num n => simp [jsGet] at hname
  | str s => simp [jsGet] at hname
  | arr xs => simp [jsGet] at hname

theorem search_missing_query_500_witness :
    mcpPost envBase ⟨some (.str "2.0"), some (.str "tools/call"),
        some (.obj [("name", .str "search")]), some (.num 3)⟩ =
      ⟨500, rpcErrorBody
        "Cannot read properties of undefined (reading toLowerCase)"
        (some (.num 3))⟩ :=
  (search_missing_query_500 envBase (.obj [("name", .str "search")]) []
    (some (.num 3)) rfl rfl rfl).2.1

/-- C8: a board-scoped tool invocation whose arguments supply no board id
falls back to the session active board id; when that is also unset the
invocation fails with a MissingContext error and the upstream operation is
never called (empty call log).  At the handler level,
`get_active_board_info` with no active board returns an early 400 without
touching the upstream client. -/
theorem board_context_default (active : Option String)
    (op : String → Except String Json) :
    invokeBoardOp none none op = (.error "MissingContext", []) ∧
    (∀ b, invokeBoardOp none (some b) op = (op b, [b])) ∧
    (∀ supplied b, supplied = some b →
      invokeBoardOp supplied active op = (op b, [b])) ∧
    (∀ (env : TrelloEnv) (params : Json), env.activeBoardId = none →
      runMethod env (.str "get_active_board_info") params =
        .early 400 (.obj [("error", .str "No active board set")]) ∧
      (∀ f, runMethod { env with getBoardById := f }
          (.str "get_active_board_info") params =
        runMethod env (.str "get_active_board_info") params)) := by
  refine ⟨rfl, fun b => rfl, fun supplied b h => by rw [h]; rfl, ?_⟩
  intro env params h
  constructor
  · simp [runMethod, jsStrictEqStr, invokeBoardOp, resolveBoardId, h]
  · intro f
    simp [runMethod, jsStrictEqStr, h]

theorem board_context_default_witness :
    invokeBoardOp none none (fun b => .ok (.str b)) =
      (.error "MissingContext", []) ∧
    invokeBoardOp none (some "B9") (fun b => .ok (.str b)) =
      (.ok (.str "B9"), ["B9"]) ∧
    runMethod envBase (.str "get_active_board_info") (.obj []) =
      .early 400 (.obj [("error", .str "No active board set")]) :=
  have h := board_context_default (some "B9") (fun b => .ok (.str b))
  ⟨h.1, h.2.1 "B9", (h.2.2.2 envBase (.obj []) rfl).1⟩

/-- C9 counterexample: when the outer timer fires first (writing the
timeout response) and the handler body later throws, the unguarded
`res.status(500).json(...)` in the `catch` handler attempts a second
response write, so two bodies are written for one request. -/
theorem single_response_counterexample :
    [WriteEvent.timerFires, WriteEvent.catchSend] ∈ requestInterleavings ∧
    writesAfter [WriteEvent.timerFires, WriteEvent.catchSend] = 2 :=
  ⟨by decide, rfl⟩

/-- C9 amended: the timer write and the success send are guarded by the
headers-sent check, so every interleaving of one handler completion and at
most one timer firing writes at most one response body — except the one in
which the timer fires first and the handler then reaches the `catch`
handler, whose send is unguarded. -/
theorem single_response_amended (es : List WriteEvent)
    (hmem : es ∈ requestInterleavings)
    (hne : es ≠ [WriteEvent.timerFires, WriteEvent.catchSend]) :
    writesAfter es ≤ 1 := by
  fin_cases hmem
  · decide
  · decide
  · decide
  · decide
  · decide
  · exact absurd rfl hne

theorem single_response_amended_witness :
    [WriteEvent.timerFires, WriteEvent.successSend] ∈ requestInterleavings ∧
    writesAfter [WriteEvent.timerFires, WriteEvent.successSend] ≤ 1 :=
  ⟨by decide,
   single_response_amended [WriteEvent.timerFires, WriteEvent.successSend]
     (by decide) (by decide)⟩

/-- C1 counterexample: a JSON-RPC request with `id = 0` that takes the
error path gets `id: null` in the response envelope (`req.body.id || null`
discards the falsy id `0`), so the id is not echoed byte-for-byte. -/
theorem id_echo_counterexample :
    (⟨some (.str "2.0"), some (.str "tools/call"),
        some (.obj [("name", .str "nosuch")]), some (.num 0)⟩ : ReqBody).id =
      some (.num 0) ∧
    jsGet (mcpPost envBase ⟨some (.str "2.0"), some (.str "tools/call"),
        some (.obj [("name", .str "nosuch")]), some (.num 0)⟩).body "id" =
      some .null ∧
    Json.null ≠ Json.num 0 :=
  ⟨rfl, rfl, by simp⟩

/-- C1 amended: for JSON-RPC-shaped requests, success responses echo the
request id exactly as received (and omit the key when the id is absent);
the error envelopes built by the `catch` handler and by the outer timeout
instead carry `req.body.id || null`, which preserves truthy ids and maps
`null` to `null` but replaces the falsy ids `0`, the empty string, and
`false` with `null`. -/
theorem id_echo_amended (env : TrelloEnv) (req : ReqBody) (m r : Json)
    (msg : String) (hrpc : jsTruthyOpt req.jsonrpc = true)
    (hm : req.method = some m) (hmt : jsTruthy m = true) :
    (runMethod env m (jsOr req.params (.obj [])) = .result r →
      mcpPost env req = ⟨200, rpcSuccessBody r req.id⟩ ∧
      (∀ j, req.id = some j →
        jsGet (rpcSuccessBody r req.id) "id" = some j)) ∧
    (runMethod env m (jsOr req.params (.obj [])) = .thrown msg →
      mcpPost env req = ⟨500, rpcErrorBody msg req.id⟩) ∧
    jsGet (rpcErrorBody msg req.id) "id" = some (jsOr req.id .null) ∧
    jsGet (timeoutResponse req).body "id" = some (jsOr req.id .null) ∧
    (∀ j, jsTruthy j = true → jsOr (some j) .null = j) ∧
    jsOr (some (.num 0)) .null = .null ∧
    jsOr (some (.str "")) .null = .null ∧
    jsOr (some .null) .null = .null := by
  have hrpc2 : (match req.jsonrpc with
      | none => false
      | some v => jsTruthy v) = true := by
    simpa [jsTruthyOpt] using hrpc
  refine ⟨?_, ?_, ?_, rfl, ?_, rfl, rfl, rfl⟩
  · intro hrun
    constructor
    · simp [mcpPost, hrpc2, hm, jsTruthyOpt, hmt, hrun]
    · intro j hj
      rw [hj]
      rfl
  · intro hrun
    simp [mcpPost, hrpc2, hm, jsTruthyOpt, hmt, hrun]
  · rfl
  · intro j hj
    simp [jsOr, hj]

theorem id_echo_amended_witness :
    mcpPost envBase ⟨some (.str "2.0"), some (.str "initialize"), none,
        some (.num 5)⟩ =
      ⟨200, rpcSuccessBody initResult (some (.num 5))⟩ ∧
    jsGet (rpcSuccessBody initResult (some (.num 5))) "id" =
      some (.num 5) ∧
    jsGet (rpcErrorBody "boom" (some (.num 5))) "id" = some (.num 5) :=
  have h := id_echo_amended envBase
    ⟨some (.str "2.0"), some (.str "initialize"), none, some (.num 5)⟩
    (.str "initialize") initResult "boom" rfl rfl rfl
  ⟨(h.1 rfl).1, (h.1 rfl).2 (.num 5) rfl, h.2.2.1⟩

/-- C5 counterexample: with an upstream environment in which list
enumeration returns no lists, dispatching `get_lists` via `tools/call`
yields the JSON-encoded string `"[]"` while the legacy direct method
yields the structured empty array — different result values for the same
argument mapping. -/
theorem tools_call_legacy_counterexample :
    runMethod envLists (.str "tools/call")
        (.obj [("name", .str "get_lists"),
          ("arguments", .obj [("boardId", .str "B")])]) =
      .result (.str "[]") ∧
    runMethod envLists (.str "get_lists") (.obj [("boardId", .str "B")]) =
      .result (.arr []) ∧
    Json.str "[]" ≠ Json.arr [] :=
  ⟨rfl, rfl, by simp⟩

/-- C5 amended: for `get_lists` and `get_cards_by_list_id` (names that are
both cataloged tools and legacy methods), the `tools/call` dispatch
performs the same upstream call with the same argument keys but returns
exactly the JSON-stringification of the legacy result; for the remaining
shared name `list_boards`, the `tools/call` variant additionally filters
closed boards, truncates to five, and projects fields, so not even
stringify-equivalence holds. -/
theorem tools_call_legacy_stringify (env : TrelloEnv) (a : Json) :
    runTool env (some (.str "get_lists")) a =
      stringifyOutcome (runMethod env (.str "get_lists") a) ∧
    runTool env (some (.str "get_cards_by_list_id")) a =
      stringifyOutcome (runMethod env (.str "get_cards_by_list_id") a) ∧
    runTool envClosedBoard (some (.str "list_boards")) (.obj []) =
      .result (.str (jsonStringify (Json.arr []))) ∧
    runMethod envClosedBoard (.str "list_boards") (.obj []) =
      .result (.arr [boardJson boardClosed]) := by
  refine ⟨?_, ?_, rfl, rfl⟩
  · cases h : env.getLists (jsGet a "boardId") <;>
      simp [runTool, runMethod, jsStrictEqStrOpt, jsStrictEqStr,
        stringifyOutcome, clientResult, h]
  · cases h : env.getCardsByList (jsGet a "boardId") (jsGet a "listId") <;>
      simp [runTool, runMethod, jsStrictEqStrOpt, jsStrictEqStr,
        stringifyOutcome, clientResult, h]

theorem runMethod_unknown (env : TrelloEnv) (params : Json) (m : String)
    (h : m ∉ knownMethods) :
    runMethod env (.str m) params =
      .early 400 (.obj [("error", .str ("Unknown method: " ++ m))]) := by
  simp only [knownMethods, List.mem_cons, List.not_mem_nil, or_false,
    not_or] at h
  simp [runMethod, jsStrictEqStr, jsDisplay, h]

theorem runTool_unknown (env : TrelloEnv) (args : Json) (t : String)
    (h : t ∉ knownTools) :
    runTool env (some (.str t)) args = .thrown ("Unknown tool: " ++ t) := by
  simp only [knownTools, List.mem_cons, List.not_mem_nil, or_false,
    not_or] at h
  simp [runTool, jsStrictEqStrOpt, jsStrictEqStr, jsDisplay, h]

/-- C6 counterexample: a `tools/call` naming the unknown tool `nosuch2` is
reported as HTTP 500 (the thrown `Unknown tool` error reaches the generic
`catch` handler), not as the HTTP 400 the claim states. -/
theorem unknown_dispatch_counterexample :
    mcpPost envBase ⟨some (.str "2.0"), some (.str "tools/call"),
        some (.obj [("name", .str "nosuch2")]), some (.num 1)⟩ =
      ⟨500, rpcErrorBody "Unknown tool: nosuch2" (some (.num 1))⟩ ∧
    (500 : Nat) ≠ 400 :=
  ⟨rfl, by simp⟩

/-- C6 amended: a method matching no recognized case is reported as HTTP
400 with the offending method name in the message; an unknown tool name in
`tools/call`, however, is thrown as an `Unknown tool` error, caught by the
generic `catch` handler, and surfaced as HTTP 500 with JSON-RPC code
-32603 and the offending tool name in the message. -/
theorem unknown_dispatch_amended (env : TrelloEnv) (req : ReqBody)
    (m t : String) (idv : Option Json)
    (hm : m ∉ knownMethods) (hmne : m ≠ "")
    (hreq : req.method = some (.str m))
    (ht : t ∉ knownTools) :
    mcpPost env req =
      ⟨400, .obj [("error", .str ("Unknown method: " ++ m))]⟩ ∧
    mcpPost env ⟨some (.str "2.0"), some (.str "tools/call"),
        some (.obj [("name", .str t), ("arguments", .obj [])]), idv⟩ =
      ⟨500, rpcErrorBody ("Unknown tool: " ++ t) idv⟩ := by
  constructor
  · have hrun := runMethod_unknown env (jsOr req.params (.obj [])) m hm
    simp [mcpPost, hreq, jsTruthyOpt, jsTruthy, hmne, hrun]
  · have hrun := runTool_unknown env (.obj []) t ht
    simp [mcpPost, jsTruthyOpt, jsTruthy, jsOr, runMethod, jsStrictEqStr,
      jsGet, List.lookup, hrun]

theorem unknown_dispatch_amended_witness :
    mcpPost envBase ⟨none, some (.str "frobnicate"), none, none⟩ =
      ⟨400, .obj [("error", .str "Unknown method: frobnicate")]⟩ ∧
    mcpPost envBase ⟨some (.str "2.0"), some (.str "tools/call"),
        some (.obj [("name", .str "frob"), ("arguments", .obj [])]),
        some (.num 1)⟩ =
      ⟨500, rpcErrorBody "Unknown tool: frob" (some (.num 1))⟩ :=
  have h := unknown_dispatch_amended envBase
    ⟨none, some (.str "frobnicate"), none, none⟩ "frobnicate" "frob"
    (some (.num 1)) (by decide) (by decide) rfl (by decide)
  ⟨h.1, h.2⟩

/-- C7 counterexample: a Simple-format body with no method is answered
with HTTP 400 whose body contains `jsonrpc: "2.0"` and `id: null` keys, so
it is not the plain single-key error object the claim states. -/
theorem missing_method_counterexample :
    mcpPost envBase ⟨none, none, none, none⟩ =
      ⟨400, .obj [("error", .str "Method is required"),
        ("jsonrpc", .str "2.0"), ("id", .null)]⟩ ∧
    jsGet (mcpPost envBase ⟨none, none, none, none⟩).body "jsonrpc" =
      some (.str "2.0") ∧
    jsGet (mcpPost envBase ⟨none, none, none, none⟩).body "id" =
      some .null :=
  ⟨rfl, rfl, rfl⟩

/-- C7 amended: a Simple-format request whose method is missing or falsy
is answered with HTTP 400 and the body
`{error: "Method is required", jsonrpc: "2.0", id: null}` — the error
message plus `jsonrpc` and `id: null` keys — and the failure
short-circuits dispatch: the response is identical under every upstream
environment, so the tool-invocation and error paths are never
entered. -/
theorem missing_method_amended (env env2 : TrelloEnv) (req : ReqBody)
    (hm : jsTruthyOpt req.method = false)
    (hs : jsTruthyOpt req.jsonrpc = false) :
    mcpPost env req =
      ⟨400, .obj [("error", .str "Method is required"),
        ("jsonrpc", .str "2.0"), ("id", .null)]⟩ ∧
    mcpPost env2 req = mcpPost env req := by
  have hbody : ∀ e : TrelloEnv, mcpPost e req =
      ⟨400, .obj [("error", .str "Method is required"),
        ("jsonrpc", .str "2.0"), ("id", .null)]⟩ := by
    intro e
    have hs2 : (match req.jsonrpc with
        | none => false
        | some v => jsTruthy v) = false := by
      simpa [jsTruthyOpt] using hs
    simp [mcpPost, hm, hs, hs2, jsOr]
  exact ⟨hbody env, by rw [hbody env2, hbody env]⟩

theorem missing_method_amended_witness :
    mcpPost envBase ⟨none, none, none, none⟩ =
      ⟨400, .obj [("error", .str "Method is required"),
        ("jsonrpc", .str "2.0"), ("id", .null)]⟩ ∧
    mcpPost envSearch ⟨none, none, none, none⟩ =
      mcpPost envBase ⟨none, none, none, none⟩ :=
  have h := missing_method_amended envBase envSearch
    ⟨none, none, none, none⟩ rfl rfl
  ⟨h.1, h.2⟩
